import Mathlib

/-!
Shallow embedding of the Stratify-AI scoring engine
(`backend/app/services/scoring_engine.py`, class `ScoringEngine`).

Python floats are modelled as real numbers, Python `None`/dicts/non-coercible
values by the inductive `PyVal`, and a raised exception by `Option.none` in the
return type of the functions that can raise.  Event timestamps enter the engine
only through `(datetime.utcnow() - event_date).days`, the event age in whole
days, so events carry that integer directly; a missing `created_at` key and a
non-`datetime` value are kept as separate constructors because the source
handles them on separate lines.
-/

open scoped Classical

namespace Stratify

/-- Python value as it reaches the numeric field accesses of the engine:
`null` is `None`; `num x` a float/int of value `x`; `nonNumeric` a truthy value
that `float()` cannot coerce (e.g. a non-numeric, non-empty string); `dict` a
currency-keyed mapping with its entries in insertion order. -/
inductive PyVal : Type where
  | null : PyVal
  | num (x : ℝ) : PyVal
  | nonNumeric : PyVal
  | dict (entries : List (String × PyVal)) : PyVal

/-- Python truthiness of a `PyVal` (`None` and `0` are falsy, an empty dict is
falsy, a non-numeric non-empty value is truthy). -/
def PyVal.truthy : PyVal → Prop
  | .null => False
  | .num x => x ≠ 0
  | .nonNumeric => True
  | .dict entries => entries ≠ []

/-- Python `val or default`. -/
noncomputable def PyVal.orDefault (v : PyVal) (d : PyVal) : PyVal :=
  if v.truthy then v else d

/-- Python `float(v)`: succeeds exactly on numeric values; `float(None)`,
`float` of a dict and `float` of a non-coercible string raise. -/
def pyFloat : PyVal → Option ℝ
  | .num x => some x
  | _ => Option.none

/-- Python `int(v)` on the values reaching line 226: truncation toward zero on
numbers, an exception otherwise. -/
noncomputable def pyInt : PyVal → Option ℤ
  | .num x => some (if 0 ≤ x then ⌊x⌋ else ⌈x⌉)
  | _ => Option.none

/-- Python `v.get("usd", d) if isinstance(v, dict) else v`
(the dict-normalisation pattern of lines 261-264, 277-280). -/
def dict_usd_or (v : PyVal) (d : PyVal) : PyVal :=
  match v with
  | .dict entries => (List.lookup "usd" entries).getD d
  | v => v

/-- CoinGecko market-data record: the keys `create_asset_profile_from_coingecko`,
`calculate_volatility` and `calculate_liquidity` read, each either absent
(`Option.none`) or present with a `PyVal`. -/
structure MarketData : Type where
  price_change_percentage_24h : Option PyVal
  price_change_percentage_7d : Option PyVal
  price_change_percentage_30d : Option PyVal
  market_cap : Option PyVal
  total_volume : Option PyVal
  market_cap_rank : Option PyVal

/-- Profile dict built by `create_asset_profile_from_coingecko` (lines 241-252). -/
structure CoinProfile : Type where
  volatility_level : ℝ
  liquidity_sensitivity : ℝ
  regulation_sensitivity : ℝ
  interest_rate_sensitivity : ℝ
  geopolitical_sensitivity : ℝ
  data_quality : String
  price_change_24h : ℝ
  price_change_7d : ℝ
  price_change_30d : ℝ

/-- ScoringEngine.amplification (line 25). -/
def amplification : ℝ := 8.0

/-- ScoringEngine.min_sensitivity (line 35). -/
def min_sensitivity : ℝ := 0.15

/-- Time horizons keyed `short_term` / `medium_term` / `long_term`. -/
inductive Horizon : Type where
  | short_term
  | medium_term
  | long_term

/-- ScoringEngine.momentum_weights (lines 28-32), as the `(24h, 7d, 30d)`
weight triple of each horizon. -/
def momentum_weights : Horizon → ℝ × ℝ × ℝ
  | .short_term => (0.5, 0.3, 0.2)
  | .medium_term => (0.15, 0.35, 0.50)
  | .long_term => (0.05, 0.15, 0.80)

/-- calculate_recency_score (lines 37-45): `days_ago` is
`(datetime.utcnow() - event_date).days`; the source constant is `0.693` and
`half_life = 14`. -/
noncomputable def calculate_recency_score (days_ago : ℤ) : ℝ :=
  max 0 (min 1 (Real.exp (-0.693 * (days_ago : ℝ) / 14)))

/-- calculate_influence_score (lines 47-67). -/
noncomputable def calculate_influence_score (asset_sensitivity event_severity
    event_sentiment recency attention : ℝ) : ℝ :=
  let floored_sensitivity := max asset_sensitivity min_sensitivity
  let magnitude := floored_sensitivity * event_severity * recency * attention
  let direction := (event_sentiment - 0.5) * 2
  magnitude * direction

/-- Price-change normalisation inside calculate_momentum_signal (lines 88-89):
±10% maps to full scale, then clamp to [-1, 1]. -/
noncomputable def normalize_pct (pct : ℝ) : ℝ :=
  max (-1) (min 1 (pct / 10))

/-- calculate_momentum_signal (lines 69-97), taking the three price changes the
caller extracts from the profile. -/
noncomputable def calculate_momentum_signal (price_change_24h price_change_7d
    price_change_30d : ℝ) (horizon : Horizon) : ℝ :=
  let w := momentum_weights horizon
  w.1 * normalize_pct price_change_24h +
    w.2.1 * normalize_pct price_change_7d +
    w.2.2 * normalize_pct price_change_30d

/-- The sigmoid of line 125. -/
noncomputable def sigmoid (x : ℝ) : ℝ :=
  1 / (1 + Real.exp (-x))

/-- aggregate_influences (lines 99-127): neutral 0.5 when there is no data,
otherwise sigmoid of `momentum * 2.5 + sum(influences) * amplification`. -/
noncomputable def aggregate_influences (influences : List ℝ) (momentum : ℝ) : ℝ :=
  if influences = [] ∧ momentum = 0 then 0.5
  else
    let macro_signal := influences.sum * amplification
    let combined := momentum * 2.5 + macro_signal
    sigmoid combined

/-- Python `round` to an integer: round-half-to-even on exact reals. -/
noncomputable def pyRound (x : ℝ) : ℤ :=
  if Int.fract x < 1 / 2 then ⌊x⌋
  else if 1 / 2 < Int.fract x then ⌊x⌋ + 1
  else if 2 ∣ ⌊x⌋ then ⌊x⌋ else ⌊x⌋ + 1

/-- Python `round(x, 3)` (lines 193-195), idealised over exact reals. -/
noncomputable def round3 (x : ℝ) : ℝ :=
  (pyRound (1000 * x) : ℝ) / 1000

/-- The `created_at` field of an incoming event dict: absent, present but not a
`datetime` (both replaced by `datetime.utcnow()` on lines 156-159), or a
`datetime` whose whole-day age relative to now is `d`. -/
inductive PyDate : Type where
  | missing
  | invalid
  | daysAgo (d : ℤ)

/-- Incoming macro-event dict: every field read by the loop of lines 151-180
may be absent. -/
structure MacroEvent : Type where
  event_type : Option String
  severity_score : Option ℝ
  sentiment_score : Option ℝ
  attention_score : Option ℝ
  created_at : PyDate

/-- Age in whole days of the event date the loop ends up using: a missing or
non-`datetime` `created_at` becomes `utcnow()`, i.e. age 0. -/
def MacroEvent.days_ago (e : MacroEvent) : ℤ :=
  match e.created_at with
  | .daysAgo d => d
  | _ => 0

/-- Asset-profile dict as read by `calculate_time_horizon_probabilities`:
`get` models `asset_profile.get` on its (numeric) keys, `Option.none` meaning
the key is absent. -/
structure AssetProfile : Type where
  get : String → Option ℝ

/-- Loop body of `calculate_time_horizon_probabilities` (lines 151-172): apply
defaults, look up `f"{event_type}_sensitivity"` (default 0.4), and score. -/
noncomputable def event_influence (asset_profile : AssetProfile) (e : MacroEvent) : ℝ :=
  let event_type := e.event_type.getD "general"
  let severity := e.severity_score.getD 0.5
  let sentiment := e.sentiment_score.getD 0.5
  let attention := e.attention_score.getD 0.5
  let recency := calculate_recency_score e.days_ago
  let asset_sensitivity := (asset_profile.get (event_type ++ "_sensitivity")).getD 0.4
  calculate_influence_score asset_sensitivity severity sentiment recency attention

/-- Events appended to `short_term_influences` (lines 176-177): age ≤ 30 days. -/
def short_bucket (macro_events : List MacroEvent) : List MacroEvent :=
  macro_events.filter fun e => decide (e.days_ago ≤ 30)

/-- Events appended to `medium_term_influences` (lines 178-179): age ≤ 180 days. -/
def medium_bucket (macro_events : List MacroEvent) : List MacroEvent :=
  macro_events.filter fun e => decide (e.days_ago ≤ 180)

/-- Events appended to `long_term_influences` (line 180): every event. -/
def long_bucket (macro_events : List MacroEvent) : List MacroEvent :=
  macro_events

/-- calculate_time_horizon_probabilities (lines 129-196), returning the
`(short_term, medium_term, long_term)` triple. -/
noncomputable def calculate_time_horizon_probabilities (asset_profile : AssetProfile)
    (macro_events : List MacroEvent) : ℝ × ℝ × ℝ :=
  let price_change_24h := (asset_profile.get "price_change_24h").getD 0
  let price_change_7d := (asset_profile.get "price_change_7d").getD 0
  let price_change_30d := (asset_profile.get "price_change_30d").getD 0
  let short_term_influences := (short_bucket macro_events).map (event_influence asset_profile)
  let medium_term_influences := (medium_bucket macro_events).map (event_influence asset_profile)
  let long_term_influences := (long_bucket macro_events).map (event_influence asset_profile)
  let short_momentum :=
    calculate_momentum_signal price_change_24h price_change_7d price_change_30d .short_term
  let medium_momentum :=
    calculate_momentum_signal price_change_24h price_change_7d price_change_30d .medium_term
  let long_momentum :=
    calculate_momentum_signal price_change_24h price_change_7d price_change_30d .long_term
  (round3 (aggregate_influences short_term_influences short_momentum),
   round3 (aggregate_influences medium_term_influences medium_momentum),
   round3 (aggregate_influences long_term_influences long_momentum))

/-- determine_confidence_level (lines 198-211). -/
def determine_confidence_level (num_events : ℕ) (asset_data_quality : String) : String :=
  if asset_data_quality = "high" ∧ num_events ≥ 5 then "High"
  else if asset_data_quality = "medium" ∨ num_events ≥ 3 then "Medium"
  else "Low"

/-- calculate_volatility (lines 256-270): `Option.none` models the
`ValueError`/`TypeError` raised by `float` on a non-coercible value. -/
noncomputable def calculate_volatility (market_data : MarketData) : Option ℝ :=
  let price_change_24h :=
    dict_usd_or ((market_data.price_change_percentage_24h).getD (.num 0)) (.num 0)
  let price_change_7d :=
    dict_usd_or ((market_data.price_change_percentage_7d).getD (.num 0)) (.num 0)
  match pyFloat (price_change_24h.orDefault (.num 0)),
        pyFloat (price_change_7d.orDefault (.num 0)) with
  | some x24, some x7 =>
      let avg_volatility := (|x24| + |x7|) / 2
      some (min (avg_volatility / 50) 1)
  | _, _ => Option.none

/-- calculate_liquidity (lines 272-286): dict fields default to `{}` and are
normalised to their `"usd"` entry (default 1 for market cap, 0 for volume);
a non-coercible value raises (`Option.none`). -/
noncomputable def calculate_liquidity (market_data : MarketData) : Option ℝ :=
  let market_cap := dict_usd_or ((market_data.market_cap).getD (.dict [])) (.num 1)
  let volume := dict_usd_or ((market_data.total_volume).getD (.dict [])) (.num 0)
  match pyFloat (market_cap.orDefault (.num 1)), pyFloat (volume.orDefault (.num 0)) with
  | some mc, some vol =>
      let volume_ratio := if mc > 0 then vol / mc else 0
      some (min ( volume_ratio / 0.1) 1)
  | _, _ => Option.none

/-- Inner `_safe_float` of create_asset_profile_from_coingecko (lines 231-234)
with its default key `"usd"`. -/
noncomputable def safe_float (val : PyVal) : Option ℝ :=
  match val with
  | .dict entries => pyFloat (((List.lookup "usd" entries).getD (.num 0)).orDefault (.num 0))
  | v => pyFloat (v.orDefault (.num 0))

/-- create_asset_profile_from_coingecko (lines 213-254): the rank coercion is
wrapped in try/except (default 1000) and never raises; volatility, liquidity
and the three `_safe_float` calls propagate exceptions (`Option.none`). -/
noncomputable def create_asset_profile_from_coingecko (market_data : MarketData) :
    Option CoinProfile :=
  match calculate_volatility market_data, calculate_liquidity market_data with
  | some volatility, some liquidity =>
    let mcr0 := (market_data.market_cap_rank).getD (.num 1000)
    let mcr1 := match mcr0 with | .dict _ => PyVal.num 1000 | v => v
    let market_cap_rank : ℤ := (pyInt (mcr1.orDefault (.num 1000))).getD 1000
    match safe_float ((market_data.price_change_percentage_24h).getD (.num 0)),
          safe_float ((market_data.price_change_percentage_7d).getD (.num 0)),
          safe_float ((market_data.price_change_percentage_30d).getD (.num 0)) with
    | some p24, some p7, some p30 =>
        some
          { volatility_level := max volatility 0.05
            liquidity_sensitivity := max (1 - liquidity) min_sensitivity
            regulation_sensitivity := max (min ((market_cap_rank : ℝ) / 100) 1) min_sensitivity
            interest_rate_sensitivity := max (volatility * 0.8 + 0.15) min_sensitivity
            geopolitical_sensitivity := max (volatility * 0.6 + 0.1) min_sensitivity
            data_quality := "high"
            price_change_24h := p24
            price_change_7d := p7
            price_change_30d := p30 }
    | _, _, _ => Option.none
  | _, _ => Option.none

/-- Value acceptable as the `"usd"` entry of a currency-keyed field: absent,
`None` or a number. -/
def usdSafe : Option PyVal → Prop
  | Option.none => True
  | some .null => True
  | some (.num _) => True
  | some _ => False

/-- Values on which the `float()` coercions of the profile builder cannot
raise: absent keys aside, a field may be `None`, a number, or a dict whose
`"usd"` entry is absent, `None` or a number. -/
def SafeVal : PyVal → Prop
  | .null => True
  | .num _ => True
  | .nonNumeric => False
  | .dict entries => usdSafe (List.lookup "usd" entries)

/-- Field of a market-data record that is absent or holds a `SafeVal`. -/
def SafeField : Option PyVal → Prop
  | Option.none => True
  | some v => SafeVal v

/-- Concrete event aged exactly 30 days. -/
def ev30 : MacroEvent :=
  { event_type := some "regulation", severity_score := some 0.7,
    sentiment_score := some 0.8, attention_score := some 0.6,
    created_at := .daysAgo 30 }

/-- Concrete event aged 200 days (older than 180). -/
def ev200 : MacroEvent :=
  { event_type := some "regulation", severity_score := some 0.7,
    sentiment_score := some 0.8, attention_score := some 0.6,
    created_at := .daysAgo 200 }

/-- Concrete event record with every field missing. -/
def ev_defaults : MacroEvent :=
  { event_type := Option.none, severity_score := Option.none,
    sentiment_score := Option.none, attention_score := Option.none,
    created_at := .missing }

/-- Concrete asset-profile dict with no keys at all. -/
def profile_empty : AssetProfile := { get := fun _ => Option.none }

/-- Concrete market-data record whose 24h price change is non-coercible. -/
def md_bad : MarketData :=
  { price_change_percentage_24h := some .nonNumeric,
    price_change_percentage_7d := Option.none,
    price_change_percentage_30d := Option.none,
    market_cap := Option.none, total_volume := Option.none,
    market_cap_rank := Option.none }

/-- Concrete market-data record with a negative market cap. -/
def md_negcap : MarketData :=
  { price_change_percentage_24h := Option.none,
    price_change_percentage_7d := Option.none,
    price_change_percentage_30d := Option.none,
    market_cap := some (.num (-1)), total_volume := some (.num 5),
    market_cap_rank := Option.none }

/-- Concrete market-data record with positive market cap 2 and volume 1. -/
def md_poscap : MarketData :=
  { price_change_percentage_24h := Option.none,
    price_change_percentage_7d := Option.none,
    price_change_percentage_30d := Option.none,
    market_cap := some (.num 2), total_volume := some (.num 1),
    market_cap_rank := Option.none }

/-- Concrete market-data record with every key absent. -/
def md_absent : MarketData :=
  { price_change_percentage_24h := Option.none,
    price_change_percentage_7d := Option.none,
    price_change_percentage_30d := Option.none,
    market_cap := Option.none, total_volume := Option.none,
    market_cap_rank := Option.none }

/-! ## Helper lemmas -/

theorem sigmoid_pos (x : ℝ) : 0 < sigmoid x := by
  unfold sigmoid
  positivity

theorem sigmoid_lt_one (x : ℝ) : sigmoid x < 1 := by
  unfold sigmoid
  rw [div_lt_one (by positivity)]
  linarith [Real.exp_pos (-x)]

theorem sigmoid_strictMono {x y : ℝ} (h : x < y) : sigmoid x < sigmoid y := by
  unfold sigmoid
  have h1 : Real.exp (-y) < Real.exp (-x) := Real.exp_lt_exp.mpr (by linarith)
  have h2 : (0 : ℝ) < 1 + Real.exp (-y) := by positivity
  exact one_div_lt_one_div_of_lt h2 (by linarith)

theorem aggregate_influences_mem (l : List ℝ) (m : ℝ) :
    0 ≤ aggregate_influences l m ∧ aggregate_influences l m ≤ 1 := by
  unfold aggregate_influences
  split_ifs with h
  · norm_num
  · exact ⟨(sigmoid_pos _).le, (sigmoid_lt_one _).le⟩

theorem pyRound_eq_floor_or (x : ℝ) :
    pyRound x = ⌊x⌋ ∨ (pyRound x = ⌊x⌋ + 1 ∧ 1 / 2 ≤ Int.fract x) := by
  unfold pyRound
  split_ifs with h1 h2 h3
  · exact Or.inl rfl
  · exact Or.inr ⟨rfl, le_of_lt h2⟩
  · exact Or.inl rfl
  · exact Or.inr ⟨rfl, not_lt.mp h1⟩

theorem pyRound_nonneg {x : ℝ} (hx : 0 ≤ x) : 0 ≤ pyRound x := by
  have hf : 0 ≤ ⌊x⌋ := Int.floor_nonneg.mpr hx
  rcases pyRound_eq_floor_or x with h | ⟨h, _⟩ <;> rw [h] <;> omega

theorem pyRound_le {x : ℝ} {n : ℤ} (hx : x ≤ n) : pyRound x ≤ n := by
  have hf : ⌊x⌋ ≤ n := by
    have h := Int.floor_le_floor hx
    simpa using h
  rcases pyRound_eq_floor_or x with h | ⟨h, hfr⟩
  · rw [h]; exact hf
  · rw [h]
    by_contra hcon
    push_neg at hcon
    have hn : n = ⌊x⌋ := by omega
    have hx2 : x ≤ ((⌊x⌋ : ℤ) : ℝ) := by
      rw [← hn]; exact hx
    have h0 : Int.fract x ≤ 0 := by
      unfold Int.fract
      linarith
    linarith

theorem pyRound_intCast (n : ℤ) : pyRound ((n : ℤ) : ℝ) = n := by
  unfold pyRound
  norm_num [Int.fract_intCast, Int.floor_intCast]

theorem round3_bounds {x : ℝ} (h0 : 0 ≤ x) (h1 : x ≤ 1) :
    0 ≤ round3 x ∧ round3 x ≤ 1 ∧ ∃ k : ℤ, round3 x = (k : ℝ) / 1000 := by
  have hnn : 0 ≤ pyRound (1000 * x) := pyRound_nonneg (by linarith)
  have hle : pyRound (1000 * x) ≤ (1000 : ℤ) := pyRound_le (by push_cast; linarith)
  refine ⟨?_, ?_, ⟨pyRound (1000 * x), rfl⟩⟩
  · unfold round3
    have hc : (0 : ℝ) ≤ (pyRound (1000 * x) : ℝ) := by exact_mod_cast hnn
    exact div_nonneg hc (by norm_num)
  · unfold round3
    rw [div_le_one (by norm_num)]
    exact_mod_cast hle

theorem round3_half : round3 (0.5 : ℝ) = 0.5 := by
  unfold round3
  have h : (1000 : ℝ) * 0.5 = ((500 : ℤ) : ℝ) := by norm_num
  rw [h, pyRound_intCast]
  norm_num

theorem calculate_recency_score_pos (d : ℤ) : 0 < calculate_recency_score d := by
  unfold calculate_recency_score
  have h := Real.exp_pos (-0.693 * (d : ℝ) / 14)
  exact lt_max_of_lt_right (lt_min one_pos h)

theorem calculate_recency_score_le_one (d : ℤ) : calculate_recency_score d ≤ 1 := by
  unfold calculate_recency_score
  exact max_le (by norm_num) (min_le_left _ _)

theorem calculate_recency_score_of_nonpos {d : ℤ} (hd : d ≤ 0) :
    calculate_recency_score d = 1 := by
  unfold calculate_recency_score
  have hdr : (d : ℝ) ≤ 0 := by exact_mod_cast hd
  have harg : 0 ≤ -0.693 * (d : ℝ) / 14 := by
    apply div_nonneg _ (by norm_num)
    nlinarith
  have hexp : 1 ≤ Real.exp (-0.693 * (d : ℝ) / 14) := Real.one_le_exp harg
  rw [min_eq_left hexp, max_eq_right (by norm_num : (0 : ℝ) ≤ 1)]

theorem calculate_recency_score_of_pos {d : ℤ} (hd : 0 < d) :
    calculate_recency_score d = Real.exp (-0.693 * (d : ℝ) / 14) := by
  unfold calculate_recency_score
  have hdr : (0 : ℝ) < (d : ℝ) := by exact_mod_cast hd
  have harg : -0.693 * (d : ℝ) / 14 < 0 := by
    apply div_neg_of_neg_of_pos _ (by norm_num)
    nlinarith
  have hexp : Real.exp (-0.693 * (d : ℝ) / 14) < 1 := Real.exp_lt_one_iff.mpr harg
  rw [min_eq_right hexp.le, max_eq_right (Real.exp_nonneg _)]

/-! ## Claim theorems -/

/-- Claim C1: for every asset profile and every list of macro events, each of
the three values returned by `calculate_time_horizon_probabilities` lies in
[0, 1] and is an integer multiple of 1/1000, i.e. is rounded to 3 decimal
digits. -/
theorem horizon_probabilities_unit_interval_rounded
    (asset_profile : AssetProfile) (macro_events : List MacroEvent) :
    (0 ≤ (calculate_time_horizon_probabilities asset_profile macro_events).1 ∧
      (calculate_time_horizon_probabilities asset_profile macro_events).1 ≤ 1 ∧
      ∃ k : ℤ, (calculate_time_horizon_probabilities asset_profile macro_events).1 =
        (k : ℝ) / 1000) ∧
    (0 ≤ (calculate_time_horizon_probabilities asset_profile macro_events).2.1 ∧
      (calculate_time_horizon_probabilities asset_profile macro_events).2.1 ≤ 1 ∧
      ∃ k : ℤ, (calculate_time_horizon_probabilities asset_profile macro_events).2.1 =
        (k : ℝ) / 1000) ∧
    (0 ≤ (calculate_time_horizon_probabilities asset_profile macro_events).2.2 ∧
      (calculate_time_horizon_probabilities asset_profile macro_events).2.2 ≤ 1 ∧
      ∃ k : ℤ, (calculate_time_horizon_probabilities asset_profile macro_events).2.2 =
        (k : ℝ) / 1000) := by
  unfold calculate_time_horizon_probabilities
  refine ⟨?_, ?_, ?_⟩ <;>
    exact round3_bounds (aggregate_influences_mem _ _).1 (aggregate_influences_mem _ _).2

/-- Claim C2: when the profile's 24h, 7d and 30d price changes are all zero and
the event list is empty, `calculate_time_horizon_probabilities` returns exactly
0.5 for all three horizons. -/
theorem horizon_probabilities_neutral (asset_profile : AssetProfile)
    (h24 : (asset_profile.get "price_change_24h").getD 0 = 0)
    (h7 : (asset_profile.get "price_change_7d").getD 0 = 0)
    (h30 : (asset_profile.get "price_change_30d").getD 0 = 0) :
    calculate_time_horizon_probabilities asset_profile [] = (0.5, 0.5, 0.5) := by
  have hnorm : normalize_pct 0 = 0 := by
    unfold normalize_pct
    norm_num
  have hmom : ∀ hz : Horizon, calculate_momentum_signal 0 0 0 hz = 0 := by
    intro hz
    unfold calculate_momentum_signal
    rw [hnorm]
    ring
  have hagg : aggregate_influences [] 0 = 0.5 := by
    unfold aggregate_influences
    rw [if_pos ⟨rfl, rfl⟩]
  unfold calculate_time_horizon_probabilities
  rw [h24, h7, h30]
  simp only [short_bucket, medium_bucket, long_bucket, List.filter_nil, List.map_nil]
  rw [hmom, hmom, hmom, hagg, round3_half]

/-- Claim C2 witness at the empty profile. -/
theorem horizon_probabilities_neutral_witness :
    calculate_time_horizon_probabilities profile_empty [] = (0.5, 0.5, 0.5) :=
  horizon_probabilities_neutral profile_empty rfl rfl rfl

/-- Claim C3: bucket membership is decided by whole-day age: an event occurrence
is in the short_term bucket iff its age is ≤ 30 days, in the medium_term bucket
iff ≤ 180 days, and in the long_term bucket unconditionally; an event exactly
30 days old feeds both short_term and medium_term, and one older than 180 days
feeds long_term only. -/
theorem bucket_membership (macro_events : List MacroEvent) (e : MacroEvent) :
    (e ∈ short_bucket macro_events ↔ e ∈ macro_events ∧ e.days_ago ≤ 30) ∧
    (e ∈ medium_bucket macro_events ↔ e ∈ macro_events ∧ e.days_ago ≤ 180) ∧
    (e ∈ long_bucket macro_events ↔ e ∈ macro_events) ∧
    (e.days_ago = 30 → e ∈ macro_events →
      e ∈ short_bucket macro_events ∧ e ∈ medium_bucket macro_events) ∧
    (180 < e.days_ago →
      e ∉ short_bucket macro_events ∧ e ∉ medium_bucket macro_events ∧
        (e ∈ macro_events → e ∈ long_bucket macro_events)) := by
  have hs : e ∈ short_bucket macro_events ↔ e ∈ macro_events ∧ e.days_ago ≤ 30 := by
    simp [short_bucket, List.mem_filter]
  have hm : e ∈ medium_bucket macro_events ↔ e ∈ macro_events ∧ e.days_ago ≤ 180 := by
    simp [medium_bucket, List.mem_filter]
  refine ⟨hs, hm, Iff.rfl, ?_, ?_⟩
  · intro h30 hmem
    exact ⟨hs.mpr ⟨hmem, by omega⟩, hm.mpr ⟨hmem, by omega⟩⟩
  · intro hgt
    refine ⟨fun hc => ?_, fun hc => ?_, fun hmem => hmem⟩
    · have h := (hs.mp hc).2
      omega
    · have h := (hm.mp hc).2
      omega

/-- Claim C3 witness: the boundary behaviour at 30 days and past 180 days on a
concrete two-event list. -/
theorem bucket_membership_witness :
    ev30 ∈ short_bucket [ev30, ev200] ∧ ev30 ∈ medium_bucket [ev30, ev200] ∧
    ev200 ∉ short_bucket [ev30, ev200] ∧ ev200 ∉ medium_bucket [ev30, ev200] ∧
    ev200 ∈ long_bucket [ev30, ev200] := by
  have h1 := bucket_membership [ev30, ev200] ev30
  have h2 := bucket_membership [ev30, ev200] ev200
  have hmem1 : ev30 ∈ [ev30, ev200] := by simp
  have hmem2 : ev200 ∈ [ev30, ev200] := by simp
  have hd1 : ev30.days_ago = 30 := rfl
  have hd2 : (180 : ℤ) < ev200.days_ago := by norm_num [ev200, MacroEvent.days_ago]
  obtain ⟨hb1, hb2⟩ := h1.2.2.2.1 hd1 hmem1
  obtain ⟨hn1, hn2, hl⟩ := h2.2.2.2.2 hd2
  exact ⟨hb1, hb2, hn1, hn2, hl hmem2⟩

/-- Claim C4: with severity, attention, recency and sensitivity fixed and
positive, raising the sentiment score from 0.4 to 0.9 strictly increases the
event's influence, and, with the other bucket influences and the momentum held
equal, strictly increases the aggregated probability of any bucket containing
the event. -/
theorem sentiment_increase_strict
    (asset_sensitivity event_severity recency attention momentum : ℝ)
    (pre post : List ℝ)
    (hsens : 0 < asset_sensitivity) (hsev : 0 < event_severity)
    (hrec : 0 < recency) (hatt : 0 < attention) :
    calculate_influence_score asset_sensitivity event_severity 0.4 recency attention <
      calculate_influence_score asset_sensitivity event_severity 0.9 recency attention ∧
    aggregate_influences
        (pre ++ calculate_influence_score asset_sensitivity event_severity 0.4 recency
          attention :: post) momentum <
      aggregate_influences
        (pre ++ calculate_influence_score asset_sensitivity event_severity 0.9 recency
          attention :: post) momentum := by
  have hfl : 0 < max asset_sensitivity min_sensitivity := lt_max_of_lt_left hsens
  have hmag : 0 < max asset_sensitivity min_sensitivity * event_severity * recency * attention :=
    mul_pos (mul_pos (mul_pos hfl hsev) hrec) hatt
  have hinf : calculate_influence_score asset_sensitivity event_severity 0.4 recency attention <
      calculate_influence_score asset_sensitivity event_severity 0.9 recency attention := by
    unfold calculate_influence_score
    dsimp only
    nlinarith [hmag]
  refine ⟨hinf, ?_⟩
  unfold aggregate_influences
  rw [if_neg (by simp), if_neg (by simp)]
  apply sigmoid_strictMono
  dsimp only
  have hsum :
      (pre ++ calculate_influence_score asset_sensitivity event_severity 0.4 recency
        attention :: post).sum <
      (pre ++ calculate_influence_score asset_sensitivity event_severity 0.9 recency
        attention :: post).sum := by
    simp only [List.sum_append, List.sum_cons]
    linarith
  unfold amplification
  linarith

/-- Claim C4 witness at sensitivity, severity, recency and attention all 1 in a
singleton bucket with zero momentum. -/
theorem sentiment_increase_strict_witness :
    calculate_influence_score 1 1 0.4 1 1 < calculate_influence_score 1 1 0.9 1 1 ∧
    aggregate_influences ([] ++ calculate_influence_score 1 1 0.4 1 1 :: []) 0 <
      aggregate_influences ([] ++ calculate_influence_score 1 1 0.9 1 1 :: []) 0 :=
  sentiment_increase_strict 1 1 1 1 0 [] [] (by norm_num) (by norm_num) (by norm_num)
    (by norm_num)

/-- Claim C5: `determine_confidence_level` returns "High" iff the quality tag is
"high" and there are at least 5 events, otherwise "Medium" iff the tag is
"medium" or there are at least 3 events (so medium quality with 0 events is
"Medium"), otherwise "Low"; in particular at (6, "high"), (2, "low") and
(3, "low") it returns "High", "Low" and "Medium". -/
theorem determine_confidence_level_spec (num_events : ℕ) (asset_data_quality : String) :
    (determine_confidence_level num_events asset_data_quality = "High" ↔
      asset_data_quality = "high" ∧ 5 ≤ num_events) ∧
    (determine_confidence_level num_events asset_data_quality = "Medium" ↔
      ¬(asset_data_quality = "high" ∧ 5 ≤ num_events) ∧
        (asset_data_quality = "medium" ∨ 3 ≤ num_events)) ∧
    (determine_confidence_level num_events asset_data_quality = "Low" ↔
      ¬(asset_data_quality = "high" ∧ 5 ≤ num_events) ∧
        ¬(asset_data_quality = "medium" ∨ 3 ≤ num_events)) ∧
    determine_confidence_level 0 "medium" = "Medium" ∧
    determine_confidence_level 6 "high" = "High" ∧
    determine_confidence_level 2 "low" = "Low" ∧
    determine_confidence_level 3 "low" = "Medium" := by
  unfold determine_confidence_level
  refine ⟨?_, ?_, ?_, by decide, by decide, by decide, by decide⟩
  · split_ifs with h1 h2
    · exact iff_of_true rfl h1
    · exact iff_of_false (by decide) h1
    · exact iff_of_false (by decide) h1
  · split_ifs with h1 h2
    · exact iff_of_false (by decide) (fun hc => hc.1 h1)
    · exact iff_of_true rfl ⟨h1, h2⟩
    · exact iff_of_false (by decide) (fun hc => h2 hc.2)
  · split_ifs with h1 h2
    · exact iff_of_false (by decide) (fun hc => hc.1 h1)
    · exact iff_of_false (by decide) (fun hc => hc.2 h2)
    · exact iff_of_true rfl ⟨h1, h2⟩

/-- Claim C6 counterexample: at 14 whole days of age the recency score of the
code differs from the claimed exp(-ln 2 · daysAgo / 14) clamped to [0, 1],
because the source multiplies by the constant 0.693, not by ln 2. -/
theorem recency_not_exact_half_life :
    calculate_recency_score 14 ≠
      max 0 (min 1 (Real.exp (-Real.log 2 * ((14 : ℤ) : ℝ) / 14))) := by
  have hlog : (0.693 : ℝ) < Real.log 2 := by
    linarith [Real.log_two_gt_d9]
  have harg2 : -Real.log 2 * ((14 : ℤ) : ℝ) / 14 = -Real.log 2 := by
    push_cast
    ring
  have hexp2 : Real.exp (-Real.log 2 * ((14 : ℤ) : ℝ) / 14) = 1 / 2 := by
    rw [harg2, Real.exp_neg, Real.exp_log two_pos]
    norm_num
  have hrhs : max 0 (min 1 (Real.exp (-Real.log 2 * ((14 : ℤ) : ℝ) / 14))) = 1 / 2 := by
    rw [hexp2]
    norm_num
  have hlhs : calculate_recency_score 14 = Real.exp (-0.693 * ((14 : ℤ) : ℝ) / 14) :=
    calculate_recency_score_of_pos (by norm_num)
  have harg1 : (-0.693 : ℝ) * ((14 : ℤ) : ℝ) / 14 = -0.693 := by
    push_cast
    ring
  rw [hlhs, hrhs, harg1]
  have hgt : (1 : ℝ) / 2 < Real.exp (-0.693) := by
    have hmono : Real.exp (-Real.log 2) < Real.exp (-0.693) :=
      Real.exp_lt_exp.mpr (by linarith)
    rw [Real.exp_neg, Real.exp_log two_pos] at hmono
    have h2 : ((2 : ℝ))⁻¹ = 1 / 2 := by norm_num
    linarith [hmono, h2.ge]
  exact ne_of_gt hgt

/-- Claim C6 as amended: the recency score equals exp(-0.693 · daysAgo / 14)
clamped to [0, 1] — 0.693 approximating ln 2, so an approximate 14-day
half-life — it is always positive and at most 1, and for zero or negative
whole-day age it equals exactly 1. -/
theorem recency_decay_formula (d : ℤ) :
    calculate_recency_score d = max 0 (min 1 (Real.exp (-0.693 * (d : ℝ) / 14))) ∧
    0 < calculate_recency_score d ∧
    calculate_recency_score d ≤ 1 ∧
    (d ≤ 0 → calculate_recency_score d = 1) :=
  ⟨rfl, calculate_recency_score_pos d, calculate_recency_score_le_one d,
    fun hd => calculate_recency_score_of_nonpos hd⟩

/-- Claim C6 witness: the amended formula at ages -2 and 7. -/
theorem recency_decay_formula_witness :
    calculate_recency_score (-2) = 1 ∧ 0 < calculate_recency_score 7 := by
  have h1 := recency_decay_formula (-2)
  have h2 := recency_decay_formula 7
  exact ⟨h1.2.2.2 (by norm_num), h2.2.1⟩

/-- Claim C7 counterexample: on a record with negative market cap the code
returns liquidity 0.0, not the claimed 0.1. -/
theorem liquidity_negative_cap_counterexample :
    calculate_liquidity md_negcap = some 0 ∧ ((0 : ℝ) ≠ 0.1) := by
  refine ⟨?_, by norm_num⟩
  have hmc : PyVal.orDefault (.num (-1)) (.num 1) = PyVal.num (-1) := by
    unfold PyVal.orDefault
    rw [if_pos]
    norm_num [PyVal.truthy]
  have hv : PyVal.orDefault (.num 5) (.num 0) = PyVal.num 5 := by
    unfold PyVal.orDefault
    rw [if_pos]
    norm_num [PyVal.truthy]
  unfold calculate_liquidity md_negcap
  dsimp only [Option.getD, dict_usd_or]
  rw [hmc, hv]
  dsimp only [pyFloat]
  rw [if_neg (by norm_num)]
  have hz : ((0 : ℝ)) / 0.1 = 0 := by norm_num
  rw [hz, min_eq_left (by norm_num : (0 : ℝ) ≤ 1)]

/-- Claim C7 as amended: with the market cap given as the scalar c and the
volume as the scalar v, liquidity equals min((v/c)/0.1, 1.0) when c > 0 but
equals 0.0 (not 0.1) when c < 0 (a zero market cap coerces to 1 via `c or 1`);
and whenever the profile builder succeeds, the profile's
liquidity_sensitivity equals max(1 - liquidity, 0.15). -/
theorem liquidity_formula (market_data : MarketData) (c v : ℝ)
    (hc : market_data.market_cap = some (.num c))
    (hv : market_data.total_volume = some (.num v)) :
    (0 < c → calculate_liquidity market_data = some (min ((v / c) / 0.1) 1)) ∧
    (c < 0 → calculate_liquidity market_data = some 0) ∧
    (∀ p : CoinProfile, create_asset_profile_from_coingecko market_data = some p →
      ∃ l, calculate_liquidity market_data = some l ∧
        p.liquidity_sensitivity = max (1 - l) min_sensitivity) := by
  have hpf : pyFloat (PyVal.orDefault (PyVal.num v) (.num 0)) = some v := by
    unfold PyVal.orDefault
    split_ifs with h
    · rfl
    · have hv0 : v = 0 := by simpa [PyVal.truthy] using h
      subst hv0
      rfl
  have hmcf : c ≠ 0 → pyFloat (PyVal.orDefault (PyVal.num c) (.num 1)) = some c := by
    intro hne
    unfold PyVal.orDefault
    rw [if_pos (show (PyVal.num c).truthy from hne)]
    rfl
  have hliq : c ≠ 0 →
      calculate_liquidity market_data = some (min ((if c > 0 then v / c else 0) / 0.1) 1) := by
    intro hne
    unfold calculate_liquidity
    rw [hc, hv]
    dsimp only [Option.getD, dict_usd_or]
    rw [hmcf hne, hpf]
  refine ⟨?_, ?_, ?_⟩
  · intro h0
    rw [hliq (ne_of_gt h0), if_pos h0]
  · intro h0
    rw [hliq (ne_of_lt h0), if_neg (by linarith)]
    have hz : ((0 : ℝ)) / 0.1 = 0 := by norm_num
    rw [hz, min_eq_left (by norm_num : (0 : ℝ) ≤ 1)]
  · intro p hp
    unfold create_asset_profile_from_coingecko at hp
    cases hvol : calculate_volatility market_data with
    | none =>
        rw [hvol] at hp
        simp at hp
    | some vol =>
        cases hliq2 : calculate_liquidity market_data with
        | none =>
            rw [hvol, hliq2] at hp
            simp at hp
        | some liq =>
            rw [hvol, hliq2] at hp
            cases h24 : safe_float ((market_data.price_change_percentage_24h).getD (.num 0)) with
            | none =>
                rw [h24] at hp
                simp at hp
            | some p24 =>
                cases h7 : safe_float ((market_data.price_change_percentage_7d).getD (.num 0)) with
                | none =>
                    rw [h24, h7] at hp
                    simp at hp
                | some p7 =>
                    cases h30 : safe_float ((market_data.price_change_percentage_30d).getD (.num 0)) with
                    | none =>
                        rw [h24, h7, h30] at hp
                        simp at hp
                    | some p30 =>
                        rw [h24, h7, h30] at hp
                        simp only [Option.some.injEq] at hp
                        exact ⟨liq, rfl, by rw [← hp]⟩

/-- Claim C7 witness: market cap 2 and volume 1 give liquidity min((1/2)/0.1, 1). -/
theorem liquidity_formula_witness :
    calculate_liquidity md_poscap = some (min ((1 / 2) / 0.1) 1) := by
  have h := liquidity_formula md_poscap 2 1 rfl rfl
  have h2 := h.1 (by norm_num)
  simpa using h2

theorem pyFloat_orDefault_some (v : PyVal) (d : ℝ)
    (hv : v = PyVal.null ∨ ∃ x, v = PyVal.num x) :
    ∃ y, pyFloat (PyVal.orDefault v (PyVal.num d)) = some y := by
  unfold PyVal.orDefault
  rcases hv with h | ⟨x, h⟩ <;> subst h
  · rw [if_neg (show ¬PyVal.truthy PyVal.null from fun h => h)]
    exact ⟨d, rfl⟩
  · split_ifs
    · exact ⟨x, rfl⟩
    · exact ⟨d, rfl⟩

theorem dict_usd_or_shape (v : PyVal) (hv : SafeVal v) (d0 : ℝ) :
    dict_usd_or v (PyVal.num d0) = PyVal.null ∨
      ∃ x, dict_usd_or v (PyVal.num d0) = PyVal.num x := by
  cases v with
  | null => exact Or.inl rfl
  | num x => exact Or.inr ⟨x, rfl⟩
  | nonNumeric => exact absurd hv (fun h => h)
  | dict entries =>
      have hv2 : usdSafe (List.lookup "usd" entries) := hv
      have hred : dict_usd_or (PyVal.dict entries) (PyVal.num d0) =
          (List.lookup "usd" entries).getD (PyVal.num d0) := rfl
      rw [hred]
      cases hl : List.lookup "usd" entries with
      | none => exact Or.inr ⟨d0, rfl⟩
      | some u =>
          rw [hl] at hv2
          cases u with
          | null => exact Or.inl rfl
          | num x => exact Or.inr ⟨x, rfl⟩
          | nonNumeric => exact absurd hv2 (fun h => h)
          | dict es2 => exact absurd hv2 (fun h => h)

theorem safe_pyFloat (v : PyVal) (hv : SafeVal v) (d0 d1 : ℝ) :
    ∃ y, pyFloat (PyVal.orDefault (dict_usd_or v (PyVal.num d0)) (PyVal.num d1)) = some y :=
  pyFloat_orDefault_some _ d1 (dict_usd_or_shape v hv d0)

theorem safe_getD_num {f : Option PyVal} (hf : SafeField f) :
    SafeVal (f.getD (PyVal.num 0)) := by
  cases f with
  | none => trivial
  | some v => exact hf

theorem safe_getD_dict {f : Option PyVal} (hf : SafeField f) :
    SafeVal (f.getD (PyVal.dict [])) := by
  cases f with
  | none => trivial
  | some v => exact hf

theorem calculate_volatility_isSome (market_data : MarketData)
    (h24 : SafeField market_data.price_change_percentage_24h)
    (h7 : SafeField market_data.price_change_percentage_7d) :
    ∃ x, calculate_volatility market_data = some x := by
  obtain ⟨y24, hy24⟩ := safe_pyFloat _ (safe_getD_num h24) 0 0
  obtain ⟨y7, hy7⟩ := safe_pyFloat _ (safe_getD_num h7) 0 0
  unfold calculate_volatility
  dsimp only
  rw [hy24, hy7]
  exact ⟨_, rfl⟩

theorem calculate_liquidity_isSome (market_data : MarketData)
    (hmc : SafeField market_data.market_cap)
    (hvol : SafeField market_data.total_volume) :
    ∃ x, calculate_liquidity market_data = some x := by
  obtain ⟨ymc, hymc⟩ := safe_pyFloat _ (safe_getD_dict hmc) 1 1
  obtain ⟨yv, hyv⟩ := safe_pyFloat _ (safe_getD_dict hvol) 0 0
  unfold calculate_liquidity
  dsimp only
  rw [hymc, hyv]
  exact ⟨_, rfl⟩

theorem safe_float_some (v : PyVal) (hv : SafeVal v) :
    ∃ x, safe_float v = some x := by
  cases v with
  | null => exact pyFloat_orDefault_some PyVal.null 0 (Or.inl rfl)
  | num x => exact pyFloat_orDefault_some (PyVal.num x) 0 (Or.inr ⟨x, rfl⟩)
  | nonNumeric => exact absurd hv (fun h => h)
  | dict entries =>
      have hv2 : usdSafe (List.lookup "usd" entries) := hv
      have hred : safe_float (PyVal.dict entries) =
          pyFloat (PyVal.orDefault ((List.lookup "usd" entries).getD (PyVal.num 0))
            (PyVal.num 0)) := rfl
      rw [hred]
      apply pyFloat_orDefault_some
      cases hl : List.lookup "usd" entries with
      | none => exact Or.inr ⟨0, rfl⟩
      | some u =>
          rw [hl] at hv2
          cases u with
          | null => exact Or.inl rfl
          | num x => exact Or.inr ⟨x, rfl⟩
          | nonNumeric => exact absurd hv2 (fun h => h)
          | dict es2 => exact absurd hv2 (fun h => h)

theorem safe_float_isSome {f : Option PyVal} (hf : SafeField f) :
    ∃ x, safe_float (f.getD (PyVal.num 0)) = some x := by
  cases f with
  | none => exact safe_float_some (PyVal.num 0) trivial
  | some v => exact safe_float_some v hf

/-- Claim C8 counterexample: on a record whose 24h price change is a truthy
non-coercible value, `float()` raises inside `calculate_volatility`, so the
profile builder raises instead of degrading the value to 0. -/
theorem profile_nonnumeric_raises :
    create_asset_profile_from_coingecko md_bad = Option.none := by
  have hvol : calculate_volatility md_bad = Option.none := by
    unfold calculate_volatility md_bad
    dsimp only [Option.getD, dict_usd_or]
    rw [show PyVal.orDefault PyVal.nonNumeric (.num 0) = PyVal.nonNumeric from by
      unfold PyVal.orDefault
      rw [if_pos (show PyVal.nonNumeric.truthy from trivial)]]
    rfl
  unfold create_asset_profile_from_coingecko
  rw [hvol]

/-- Claim C8 as amended: the profile builder never raises on a record whose
numeric fields are absent, null, numeric, or currency-keyed with an absent,
null or numeric "usd" entry — those degrade to defaults — but a non-coercible
value (e.g. a non-numeric string) makes it raise; the market-cap rank may be
arbitrary since its coercion is wrapped in try/except. -/
theorem profile_safe_fields_no_raise (market_data : MarketData)
    (h24 : SafeField market_data.price_change_percentage_24h)
    (h7 : SafeField market_data.price_change_percentage_7d)
    (h30 : SafeField market_data.price_change_percentage_30d)
    (hmc : SafeField market_data.market_cap)
    (hvol : SafeField market_data.total_volume) :
    ∃ p, create_asset_profile_from_coingecko market_data = some p := by
  obtain ⟨xv, hxv⟩ := calculate_volatility_isSome market_data h24 h7
  obtain ⟨xl, hxl⟩ := calculate_liquidity_isSome market_data hmc hvol
  obtain ⟨s24, hs24⟩ := safe_float_isSome h24
  obtain ⟨s7, hs7⟩ := safe_float_isSome h7
  obtain ⟨s30, hs30⟩ := safe_float_isSome h30
  unfold create_asset_profile_from_coingecko
  rw [hxv, hxl]
  dsimp only
  rw [hs24, hs7, hs30]
  exact ⟨_, rfl⟩

/-- Claim C8 witness: a record with every key absent yields a profile. -/
theorem profile_safe_fields_no_raise_witness :
    SafeField md_absent.price_change_percentage_24h ∧
    SafeField md_absent.market_cap ∧
    ∃ p, create_asset_profile_from_coingecko md_absent = some p :=
  ⟨trivial, trivial,
    profile_safe_fields_no_raise md_absent trivial trivial trivial trivial trivial⟩

/-- Claim C9: a market-data record with its 24h price change given as the
currency-keyed mapping containing "usd" maps to 12.5 produces the same
volatility, and the same profile volatility_level, as the identical record with
the scalar 12.5. -/
theorem volatility_dict_scalar_equiv (market_data : MarketData) :
    calculate_volatility
        { market_data with
          price_change_percentage_24h := some (.dict [("usd", .num 12.5)]) } =
      calculate_volatility
        { market_data with price_change_percentage_24h := some (.num 12.5) } ∧
    (create_asset_profile_from_coingecko
        { market_data with
          price_change_percentage_24h := some (.dict [("usd", .num 12.5)]) }).map
        CoinProfile.volatility_level =
      (create_asset_profile_from_coingecko
        { market_data with price_change_percentage_24h := some (.num 12.5) }).map
        CoinProfile.volatility_level := by
  constructor
  · rfl
  · rfl

/-- Claim C10: an event with every field missing is scored with `event_type`
"general" (so, when the profile lacks a "general_sensitivity" key, sensitivity
0.4), severity, sentiment and attention 0.5, and age 0 days — hence recency
exactly 1 — and it lands in all three horizon buckets; the same holds when
`created_at` is present but not a datetime. -/
theorem event_defaults_applied (asset_profile : AssetProfile) (e : MacroEvent)
    (macro_events : List MacroEvent)
    (htype : e.event_type = Option.none)
    (hsev : e.severity_score = Option.none)
    (hsent : e.sentiment_score = Option.none)
    (hatt : e.attention_score = Option.none)
    (hdate : e.created_at = PyDate.missing ∨ e.created_at = PyDate.invalid)
    (hlook : asset_profile.get "general_sensitivity" = Option.none) :
    e.days_ago = 0 ∧
    calculate_recency_score e.days_ago = 1 ∧
    event_influence asset_profile e =
      calculate_influence_score 0.4 0.5 0.5 (calculate_recency_score 0) 0.5 ∧
    (e ∈ macro_events →
      e ∈ short_bucket macro_events ∧ e ∈ medium_bucket macro_events ∧
        e ∈ long_bucket macro_events) := by
  have hdays : e.days_ago = 0 := by
    unfold MacroEvent.days_ago
    rcases hdate with h | h <;> rw [h]
  refine ⟨hdays, by rw [hdays]; exact calculate_recency_score_of_nonpos le_rfl, ?_, ?_⟩
  · unfold event_influence
    rw [htype, hsev, hsent, hatt, hdays]
    dsimp only [Option.getD]
    rw [show ("general" ++ "_sensitivity" : String) = "general_sensitivity" from rfl, hlook]
  · intro hmem
    refine ⟨?_, ?_, hmem⟩
    · simp [short_bucket, List.mem_filter, hmem, hdays]
    · simp [medium_bucket, List.mem_filter, hmem, hdays]

/-- Claim C10 witness: the all-fields-missing event on the keyless profile. -/
theorem event_defaults_applied_witness :
    ev_defaults ∈ short_bucket [ev_defaults] ∧
    event_influence profile_empty ev_defaults =
      calculate_influence_score 0.4 0.5 0.5 (calculate_recency_score 0) 0.5 := by
  have h := event_defaults_applied profile_empty ev_defaults [ev_defaults]
    rfl rfl rfl rfl (Or.inl rfl) rfl
  exact ⟨(h.2.2.2 (by simp)).1, h.2.2.1⟩

end Stratify
